import Mathlib

/-!
# Verification of the Thai ID smart-card reading core (`src/lol.py`)

This file gives a shallow embedding of the card-protocol and field-extraction
engine of the repository and proves the specification claims about it.

Modelling conventions:
* APDU byte lists are `List Nat` (every byte produced by the real channel is
  below 256; theorems about decoders carry that bound as a hypothesis).
* The physical channel (`self.conn` of `SmartCardConnection`) is modelled by
  `Chan`: its ATR byte string plus a response function giving, for the k-th
  `transmit` call of a session and the transmitted APDU, either a response
  triple `(data, sw1, sw2)` or a raised exception.
* Exceptions are values of `PyErr`: `SmartCardError` instances keep the
  diagnostic data (offending command bytes and status word) that the Python
  code embeds in the exception message; any non-`SmartCardError` exception a
  channel primitive may raise is `PyErr.other`.
* `SCState` is ghost instrumentation: it counts `transmit` calls, records the
  transmitted commands in order, and counts `disconnect` calls, so that
  claims such as "no further field reads" and "disconnect is invoked exactly
  once" become statements about the final state.
-/

namespace CardReader

/-! ## Decoders (lines 122-143 of the source) -/

/-- The character set Python `str.strip()` / `str.isspace()` removes
(Unicode whitespace plus the `\x1c`-`\x1f` separators). -/
def pyIsSpace (c : Char) : Bool :=
  let n := c.toNat
  (0x09 ≤ n && n ≤ 0x0D) || (0x1C ≤ n && n ≤ 0x1F) || n = 0x20 ||
    n = 0x85 || n = 0xA0 || n = 0x1680 || (0x2000 ≤ n && n ≤ 0x200A) ||
    n = 0x2028 || n = 0x2029 || n = 0x202F || n = 0x205F || n = 0x3000

/-- Python `str.strip()`: drop leading and trailing whitespace characters. -/
def pyStripChars (cs : List Char) : List Char :=
  ((cs.dropWhile pyIsSpace).reverse.dropWhile pyIsSpace).reverse

/-- Python `str.isdigit` on the ASCII range (the card's date fields are ASCII;
theorems quantifying over strings restrict to ASCII characters so that this
model agrees with Python's full Unicode digit test). -/
def pyIsDigit (c : Char) : Bool :=
  0x30 ≤ c.toNat && c.toNat ≤ 0x39

/-- The decoding table of Python's `tis-620` codec: bytes below `0xA0`
decode to the code point of the same value (ASCII plus the C1 controls
`U+0080`-`U+009F`), the Thai block `0x0E01`-`0x0E5B` sits at offset `0x0D60`
for `0xA1`-`0xDA` and `0xDF`-`0xFB`, and the undefined positions `0xA0`,
`0xDB`-`0xDE`, `0xFC`-`0xFF` decode (under `errors='replace'`) to the
`U+FFFD` replacement character. -/
def tis620Char (b : Nat) : Char :=
  if b < 0xA0 then Char.ofNat b
  else if (0xA1 ≤ b ∧ b ≤ 0xDA) ∨ (0xDF ≤ b ∧ b ≤ 0xFB) then Char.ofNat (b + 0x0D60)
  else Char.ofNat 0xFFFD

/-- Whether a byte has a mapping in the `tis-620` decoding table (every byte
below 256 except `0xA0`, `0xDB`-`0xDE` and `0xFC`-`0xFF`). -/
def tis620Mappable (b : Nat) : Bool :=
  b < 0xA0 || (0xA1 ≤ b && b ≤ 0xDA) || (0xDF ≤ b && b ≤ 0xFB)

/-- The per-character effect of `.replace('#', ' ')`. -/
def replaceHash (c : Char) : Char :=
  if c = '#' then ' ' else c

/-- `thai2unicode` (source lines 122-129): decode TIS-620 with replacement,
substitute `#` by a space, strip surrounding whitespace. -/
def thai2unicode (data : List Nat) : String :=
  String.mk (pyStripChars ((data.map tis620Char).map replaceHash))

/-- `format_date` (source lines 132-143): strip the input, then reformat
`YYYYMMDD` as `DD/MM/YYYY` when the stripped input is exactly 8 digits,
otherwise return the stripped input. -/
def format_date (s : String) : String :=
  let t := pyStripChars s.toList
  if t.length = 8 ∧ t.all pyIsDigit = true then
    let year := t.take 4
    let month := (t.drop 4).take 2
    let day := (t.drop 6).take 2
    String.mk (day ++ ['/'] ++ month ++ ['/'] ++ year)
  else
    String.mk t

/-! ## APDU constants (source lines 117-119) -/

def APDU_SELECT_COMMAND : List Nat := [0x00, 0xA4, 0x04, 0x00, 0x08]

def APDU_APPLET_ID : List Nat := [0xA0, 0x00, 0x00, 0x00, 0x54, 0x48, 0x00, 0x01]

def SW_SUCCESS : List Nat := [0x90, 0x00]

/-- The full applet-select APDU transmitted at line 249-250. -/
def selectApdu : List Nat := APDU_SELECT_COMMAND ++ APDU_APPLET_ID

/-! ## Errors, channel and instrumentation state -/

/-- The diagnostic payload of a `SmartCardError`, one constructor per `raise`
site of the source: line 209 (initial transmit of a field/photo command
failed), line 215 (`GET RESPONSE` failed), line 260 (applet-select
continuation failed), line 263 (applet select failed). -/
inductive SCError where
  | commandFailed (cmd : List Nat) (sw1 sw2 : Nat)
  | getResponseFailed (cmd : List Nat) (sw1 sw2 : Nat)
  | selectGetResponseFailed (sw1 sw2 : Nat)
  | selectFailed (sw1 sw2 : Nat)
  deriving DecidableEq

/-- A Python exception: either a `SmartCardError` (the only kind the code
itself raises) or any other exception, which only the underlying channel can
raise (`PyErr.other`, tagged by a number). -/
inductive PyErr where
  | sc (e : SCError)
  | other (tag : Nat)
  deriving DecidableEq

/-- The physical smart-card channel: its ATR and, for each `transmit` call
(identified by the session-wide call index) and transmitted APDU, the
response triple `(data, sw1, sw2)` or the raised exception. -/
structure Chan where
  atr : List Nat
  resp : Nat → List Nat → Except PyErr (List Nat × Nat × Nat)

/-- Ghost instrumentation: number of `transmit` calls made, the APDUs
transmitted so far in order, and the number of `disconnect` calls. -/
structure SCState where
  count : Nat
  log : List (List Nat)
  disconnects : Nat
  deriving DecidableEq

/-- `SmartCardConnection.transmit` (line 173-174), instrumented: the APDU is
recorded and the call counter advanced whether or not the channel raises. -/
def transmit (ch : Chan) (apdu : List Nat) (s : SCState) :
    Except PyErr (List Nat × Nat × Nat) × SCState :=
  (ch.resp s.count apdu, ⟨s.count + 1, s.log ++ [apdu], s.disconnects⟩)

/-- `SmartCardConnection.disconnect` (lines 176-178); `self.conn` is always
truthy here, so the underlying disconnect always runs. -/
def disconnect (s : SCState) : SCState :=
  ⟨s.count, s.log, s.disconnects + 1⟩

/-- The `get_response_apdu_prefix` computed by `SmartCardConnection.connect`
(lines 167-171) from the first two ATR bytes. -/
def getResponsePfx (atr : List Nat) : List Nat :=
  if atr.take 2 = [0x3B, 0x67] then [0x00, 0xC0, 0x00, 0x01]
  else [0x00, 0xC0, 0x00, 0x00]

/-! ## The generic continuation read (`_get_data_with_get_response`,
source lines 200-217) -/

/-- Lines 211-217: build the `GET RESPONSE` APDU from the connection's prefix
and the determined length, transmit it, and require a success status word. -/
def continueRead (ch : Chan) (pfx : List Nat) (len : Nat) (s : SCState) :
    Except PyErr (List Nat) × SCState :=
  let gr := pfx ++ [len]
  match transmit ch gr s with
  | (Except.error e, s2) => (Except.error e, s2)
  | (Except.ok (data, sw1, sw2), s2) =>
    if [sw1, sw2] = SW_SUCCESS then (Except.ok data, s2)
    else (Except.error (PyErr.sc (SCError.getResponseFailed gr sw1 sw2)), s2)

/-- `_get_data_with_get_response` (lines 200-217).  `command_apdu[-1]` is
modelled by `List.getLastD _ 0`; every call site passes a non-empty command,
so the default is unreachable. -/
def getDataWithGetResponse (ch : Chan) (pfx : List Nat) (cmd : List Nat)
    (s : SCState) : Except PyErr (List Nat) × SCState :=
  match transmit ch cmd s with
  | (Except.error e, s1) => (Except.error e, s1)
  | (Except.ok (_, sw1, sw2), s1) =>
    if [sw1, sw2] = SW_SUCCESS then continueRead ch pfx (cmd.getLastD 0) s1
    else if sw1 = 0x61 then continueRead ch pfx sw2 s1
    else (Except.error (PyErr.sc (SCError.commandFailed cmd sw1 sw2)), s1)

/-! ## Record model and command catalog (source lines 146-151, 181-192,
266-276) -/

/-- `APDUCommand` (lines 146-151): instruction bytes, field label, decoder
(defaulting to `thai2unicode`). -/
structure APDUCommand where
  ins : List Nat
  label : String
  decoder : List Nat → String := thai2unicode

/-- `IDCardData` (lines 181-192). -/
structure IDCardData where
  cid : String := ""
  th_fullname : String := ""
  en_fullname : String := ""
  dob : String := ""
  gender : String := ""
  issuer : String := ""
  issue_date : String := ""
  expire_date : String := ""
  address : String := ""
  photo_bytes : Option (List Nat) := none
  deriving DecidableEq

/-- The freshly constructed record (`IDCardData()`, line 278). -/
def emptyCard : IDCardData := {}

/-- `setattr(card_data, cmd.label, result)` (line 281); every label occurring
in the catalog is one of the nine field names. -/
def setField (d : IDCardData) (label : String) (v : String) : IDCardData :=
  if label = "cid" then { d with cid := v }
  else if label = "th_fullname" then { d with th_fullname := v }
  else if label = "en_fullname" then { d with en_fullname := v }
  else if label = "dob" then { d with dob := v }
  else if label = "gender" then { d with gender := v }
  else if label = "issuer" then { d with issuer := v }
  else if label = "issue_date" then { d with issue_date := v }
  else if label = "expire_date" then { d with expire_date := v }
  else if label = "address" then { d with address := v }
  else d

/-- The fixed nine-entry command catalog built in `read_card`
(lines 266-276). -/
def commands : List APDUCommand :=
  [{ ins := [0x80, 0xB0, 0x00, 0x04, 0x02, 0x00, 0x0D], label := "cid" },
   { ins := [0x80, 0xB0, 0x00, 0x11, 0x02, 0x00, 0x64], label := "th_fullname" },
   { ins := [0x80, 0xB0, 0x00, 0x75, 0x02, 0x00, 0x64], label := "en_fullname" },
   { ins := [0x80, 0xB0, 0x00, 0xD9, 0x02, 0x00, 0x08], label := "dob" },
   { ins := [0x80, 0xB0, 0x00, 0xE1, 0x02, 0x00, 0x01], label := "gender" },
   { ins := [0x80, 0xB0, 0x00, 0xF6, 0x02, 0x00, 0x64], label := "issuer" },
   { ins := [0x80, 0xB0, 0x01, 0x67, 0x02, 0x00, 0x08], label := "issue_date" },
   { ins := [0x80, 0xB0, 0x01, 0x6F, 0x02, 0x00, 0x08], label := "expire_date" },
   { ins := [0x80, 0xB0, 0x15, 0x79, 0x02, 0x00, 0x64], label := "address" }]

/-! ## Field and photo reads (`_read_field` lines 219-221, `_read_photo`
lines 223-240) -/

/-- `_read_field` (lines 219-221). -/
def read_field (ch : Chan) (pfx : List Nat) (c : APDUCommand) (s : SCState) :
    Except PyErr String × SCState :=
  match getDataWithGetResponse ch pfx c.ins s with
  | (Except.error e, s1) => (Except.error e, s1)
  | (Except.ok data, s1) => (Except.ok (c.decoder data), s1)

/-- The `for cmd in commands` loop of `read_card` (lines 279-281). -/
def readFields (ch : Chan) (pfx : List Nat) :
    List APDUCommand → IDCardData → SCState → Except PyErr IDCardData × SCState
  | [], d, s => (Except.ok d, s)
  | c :: cs, d, s =>
    match read_field ch pfx c s with
    | (Except.error e, s1) => (Except.error e, s1)
    | (Except.ok v, s1) => readFields ch pfx cs (setField d c.label v) s1

/-- The photo segment command of lines 227-229: `p1 = i & 0xFF`,
`p2 = (0x7C - i) & 0xFF` computed as in Python (two's-complement wrap). -/
def photoCmd (i : Nat) : List Nat :=
  [0x80, 0xB0, i % 256, (((0x7C : Int) - (i : Int)) % 256).toNat, 0x02, 0x00, 0xFF]

/-- The `for i in range(1, segments + 1)` loop of `_read_photo`
(lines 226-235): `i` is the current 1-based segment index, `remaining` the
number of loop iterations left.  A `SmartCardError` breaks the loop; any
other exception propagates. -/
def readPhotoAux (ch : Chan) (pfx : List Nat) :
    Nat → Nat → List Nat → SCState → Except PyErr (List Nat) × SCState
  | _, 0, acc, s => (Except.ok acc, s)
  | i, r + 1, acc, s =>
    match getDataWithGetResponse ch pfx (photoCmd i) s with
    | (Except.ok data, s1) => readPhotoAux ch pfx (i + 1) r (acc ++ data) s1
    | (Except.error (PyErr.sc _), s1) => (Except.ok acc, s1)
    | (Except.error (PyErr.other t), s1) => (Except.error (PyErr.other t), s1)

/-- `_read_photo` (lines 223-240): run the segment loop, then discard the
buffer when it holds fewer than 1024 bytes. -/
def read_photo (ch : Chan) (pfx : List Nat) (segments : Nat) (s : SCState) :
    Except PyErr (Option (List Nat)) × SCState :=
  match readPhotoAux ch pfx 1 segments [] s with
  | (Except.error e, s1) => (Except.error e, s1)
  | (Except.ok acc, s1) =>
    (Except.ok (if acc.length < 1024 then none else some acc), s1)

/-! ## `read_card` (source lines 242-290) -/

/-- Steps 2 and 3 of `read_card` (lines 265-286): read the nine fields, then
the photo, and assemble the record. -/
def readRest (ch : Chan) (pfx : List Nat) (s : SCState) :
    Except PyErr IDCardData × SCState :=
  match readFields ch pfx commands emptyCard s with
  | (Except.error e, s1) => (Except.error e, s1)
  | (Except.ok d, s1) =>
    match read_photo ch pfx 20 s1 with
    | (Except.error e, s2) => (Except.error e, s2)
    | (Except.ok p, s2) => (Except.ok { d with photo_bytes := p }, s2)

/-- The `try` body of `read_card` (lines 244-286): connect (deriving the
continuation prefix from the ATR), select the applet with its own
continuation handling, then read fields and photo. -/
def read_card_body (ch : Chan) : Except PyErr IDCardData × SCState :=
  let pfx := getResponsePfx ch.atr
  match transmit ch selectApdu ⟨0, [], 0⟩ with
  | (Except.error e, s1) => (Except.error e, s1)
  | (Except.ok (_, sw1, sw2), s1) =>
    if [sw1, sw2] = SW_SUCCESS then readRest ch pfx s1
    else if sw1 = 0x61 then
      match transmit ch (pfx ++ [sw2]) s1 with
      | (Except.error e, s2) => (Except.error e, s2)
      | (Except.ok (_, rsw1, rsw2), s2) =>
        if [rsw1, rsw2] = SW_SUCCESS then readRest ch pfx s2
        else (Except.error (PyErr.sc (SCError.selectGetResponseFailed rsw1 rsw2)), s2)
    else (Except.error (PyErr.sc (SCError.selectFailed sw1 sw2)), s1)

/-- `read_card` (lines 242-290): the `try` body followed by the `finally`
block, which disconnects on every exit path. -/
def read_card (ch : Chan) : Except PyErr IDCardData × SCState :=
  let r := read_card_body ch
  (r.1, disconnect r.2)

/-- `f 1 ++ f 2 ++ ... ++ f k` shifted by `j`: the in-order concatenation of
the payloads of segments `j+1 .. j+r`. -/
def catFrom {α : Type} (f : Nat → List α) : Nat → Nat → List α
  | _, 0 => []
  | j, r + 1 => f (j + 1) ++ catFrom f (j + 1) r

/-! ## Helper lemmas about stripping and decoding -/

lemma toList_mk (cs : List Char) : (String.mk cs).toList = cs := rfl

lemma dropWhile_head_not {α : Type} (p : α → Bool) (l : List α) :
    ((l.dropWhile p).head?.all fun c => !p c) = true := by
  induction l with
  | nil => rfl
  | cons a as ih =>
    by_cases h : p a = true
    · simpa [List.dropWhile_cons, h] using ih
    · simp [List.dropWhile_cons, h]

lemma dropWhile_eq_self_of_head {α : Type} (p : α → Bool) (l : List α)
    (h : (l.head?.all fun c => !p c) = true) : l.dropWhile p = l := by
  cases l with
  | nil => rfl
  | cons a as =>
    simp only [List.head?_cons, Option.all_some, Bool.not_eq_true'] at h
    simp [List.dropWhile_cons, h]

lemma getLast?_dropWhile {α : Type} (p : α → Bool) (l : List α)
    (h : l.dropWhile p ≠ []) : (l.dropWhile p).getLast? = l.getLast? := by
  induction l with
  | nil => simp at h
  | cons a as ih =>
    by_cases hpa : p a = true
    · rw [List.dropWhile_cons, if_pos hpa] at h ⊢
      have has : as ≠ [] := by
        intro he
        rw [he] at h
        exact h rfl
      rw [ih h]
      cases as with
      | nil => exact absurd rfl has
      | cons b bs => simp [List.getLast?_cons_cons]
    · rw [List.dropWhile_cons, if_neg hpa]

lemma pyStripChars_eq_self (l : List Char)
    (h1 : (l.head?.all fun c => !pyIsSpace c) = true)
    (h2 : (l.getLast?.all fun c => !pyIsSpace c) = true) :
    pyStripChars l = l := by
  unfold pyStripChars
  rw [dropWhile_eq_self_of_head _ _ h1]
  rw [dropWhile_eq_self_of_head _ _ (by rw [List.head?_reverse]; exact h2)]
  exact List.reverse_reverse l

lemma pyStripChars_head (l : List Char) :
    ((pyStripChars l).head?.all fun c => !pyIsSpace c) = true := by
  unfold pyStripChars
  rw [List.head?_reverse]
  by_cases hz : (l.dropWhile pyIsSpace).reverse.dropWhile pyIsSpace = []
  · simp [hz]
  · rw [getLast?_dropWhile _ _ hz, List.getLast?_reverse]
    exact dropWhile_head_not _ _

lemma pyStripChars_getLast (l : List Char) :
    ((pyStripChars l).getLast?.all fun c => !pyIsSpace c) = true := by
  unfold pyStripChars
  rw [List.getLast?_reverse]
  exact dropWhile_head_not _ _

lemma mem_pyStripChars {c : Char} {l : List Char} (h : c ∈ pyStripChars l) :
    c ∈ l := by
  unfold pyStripChars at h
  rw [List.mem_reverse] at h
  have h2 := (List.dropWhile_sublist (l := (l.dropWhile pyIsSpace).reverse) pyIsSpace).mem h
  rw [List.mem_reverse] at h2
  exact (List.dropWhile_sublist pyIsSpace).mem h2

lemma replaceHash_ne_hash (c : Char) : replaceHash c ≠ '#' := by
  unfold replaceHash
  by_cases h : c = '#'
  · rw [if_pos h]
    decide
  · rw [if_neg h]
    exact h

lemma pyIsDigit_not_space {c : Char} (h : pyIsDigit c = true) :
    pyIsSpace c = false := by
  simp only [pyIsDigit, Bool.and_eq_true, decide_eq_true_eq] at h
  simp only [pyIsSpace, Bool.or_eq_false_iff, Bool.and_eq_false_iff,
    decide_eq_false_iff_not]
  omega

/-! ## Claims C7, C8, C9: the decoders -/

/-- C7 (counterexample): `format_date` does not return every non-8-digit
input unchanged — it strips surrounding whitespace first, so the 4-character
input `"abc "` comes back as `"abc"`. -/
theorem format_date_unchanged_cex :
    format_date "abc " = "abc" ∧ ("abc" : String) ≠ "abc " := by
  constructor
  · decide
  · decide

/-- C7 (amended): `format_date` first strips leading/trailing whitespace;
whenever the stripped input is not exactly 8 digits it returns the stripped
input — in particular, an ASCII input with no leading or trailing whitespace
that is not exactly 8 digits is returned unchanged. -/
theorem format_date_strips_then_checks (s : String)
    (hascii : ∀ c ∈ s.toList, c.toNat < 128)
    (hnot : ¬((pyStripChars s.toList).length = 8 ∧
      (pyStripChars s.toList).all pyIsDigit = true)) :
    format_date s = String.mk (pyStripChars s.toList) ∧
    ((s.toList.head?.all fun c => !pyIsSpace c) = true →
      (s.toList.getLast?.all fun c => !pyIsSpace c) = true →
      format_date s = s) := by
  have hmain : format_date s = String.mk (pyStripChars s.toList) := by
    simp only [format_date]
    rw [if_neg hnot]
  refine ⟨hmain, fun h1 h2 => ?_⟩
  rw [hmain, pyStripChars_eq_self _ h1 h2]
  rfl

theorem format_date_strips_then_checks_witness : format_date "abc" = "abc" :=
  (format_date_strips_then_checks "abc" (by decide) (by decide)).2
    (by decide) (by decide)

/-- C8: on an input of exactly 8 ASCII digits `YYYYMMDD`, `format_date`
returns `DD/MM/YYYY` built from the same digits, with no era conversion. -/
theorem format_date_digits (c₁ c₂ c₃ c₄ c₅ c₆ c₇ c₈ : Char)
    (h : ([c₁, c₂, c₃, c₄, c₅, c₆, c₇, c₈].all pyIsDigit) = true) :
    format_date (String.mk [c₁, c₂, c₃, c₄, c₅, c₆, c₇, c₈]) =
      String.mk [c₇, c₈, '/', c₅, c₆, '/', c₁, c₂, c₃, c₄] := by
  have hl : ∀ c ∈ [c₁, c₂, c₃, c₄, c₅, c₆, c₇, c₈], pyIsDigit c = true := by
    simpa [List.all_eq_true] using h
  have h1 : pyIsSpace c₁ = false := pyIsDigit_not_space (hl c₁ (by simp))
  have h8 : pyIsSpace c₈ = false := pyIsDigit_not_space (hl c₈ (by simp))
  have hstrip : pyStripChars [c₁, c₂, c₃, c₄, c₅, c₆, c₇, c₈] =
      [c₁, c₂, c₃, c₄, c₅, c₆, c₇, c₈] := by
    refine pyStripChars_eq_self _ ?_ ?_
    · simp [h1]
    · show (Option.all _ (List.getLast? _)) = true
      rw [show ([c₁, c₂, c₃, c₄, c₅, c₆, c₇, c₈].getLast?) = some c₈ from rfl]
      simp [h8]
  simp only [format_date, toList_mk, hstrip]
  rw [if_pos ⟨rfl, h⟩]
  rfl

theorem format_date_digits_witness :
    format_date (String.mk ['2', '5', '5', '0', '0', '9', '0', '7']) =
      String.mk ['0', '7', '/', '0', '9', '/', '2', '5', '5', '0'] :=
  format_date_digits '2' '5' '5' '0' '0' '9' '0' '7' (by decide)

/-- C9: `thai2unicode`'s output is the TIS-620 decode of the input with
every literal `#` replaced by a space, stripped of surrounding whitespace.
Decoding never fails: unmappable bytes decode to the `U+FFFD` replacement
character.  The replacement step is characterized pointwise: it keeps every
position (no deletion) and sends `#` to `' '` and every other character to
itself; consequently the output contains no `#`, and it carries no leading
or trailing whitespace. -/
theorem thai2unicode_decoding (data : List Nat) (hb : ∀ b ∈ data, b < 256) :
    thai2unicode data =
      String.mk (pyStripChars ((data.map tis620Char).map replaceHash)) ∧
    (∀ i : Nat, ((data.map tis620Char).map replaceHash)[i]? =
      ((data.map tis620Char)[i]?).map fun c => if c = '#' then ' ' else c) ∧
    '#' ∉ (thai2unicode data).toList ∧
    ((thai2unicode data).toList.head?.all fun c => !pyIsSpace c) = true ∧
    ((thai2unicode data).toList.getLast?.all fun c => !pyIsSpace c) = true ∧
    ∀ b ∈ data, tis620Mappable b = false → tis620Char b = Char.ofNat 0xFFFD := by
  refine ⟨rfl, ?_, ?_, pyStripChars_head _, pyStripChars_getLast _, ?_⟩
  · intro i
    rw [List.getElem?_map]
    cases (data.map tis620Char)[i]? <;> simp [replaceHash]
  · intro hmem
    rw [show (thai2unicode data).toList =
      pyStripChars ((data.map tis620Char).map replaceHash) from rfl] at hmem
    obtain ⟨x, -, hx⟩ := List.mem_map.mp (mem_pyStripChars hmem)
    exact replaceHash_ne_hash x hx
  · intro b _ hm
    have h1 : ¬ b < 0xA0 := by
      intro hc
      simp [tis620Mappable, hc] at hm
    have h2 : ¬((0xA1 ≤ b ∧ b ≤ 0xDA) ∨ (0xDF ≤ b ∧ b ≤ 0xFB)) := by
      rintro (⟨ha, hb2⟩ | ⟨ha, hb2⟩) <;> simp [tis620Mappable, ha, hb2] at hm
    simp [tis620Char, h1, h2]

theorem thai2unicode_decoding_witness :
    thai2unicode [0x41, 0x23, 0xA0, 0x20] =
      String.mk (pyStripChars (([0x41, 0x23, 0xA0, 0x20].map tis620Char).map replaceHash)) ∧
    (([0x41, 0x23, 0xA0, 0x20].map tis620Char).map replaceHash)[1]? =
      ((([0x41, 0x23, 0xA0, 0x20].map tis620Char))[1]?).map
        (fun c => if c = '#' then ' ' else c) ∧
    '#' ∉ (thai2unicode [0x41, 0x23, 0xA0, 0x20]).toList ∧
    tis620Char 0xA0 = Char.ofNat 0xFFFD ∧
    tis620Char 0x80 = Char.ofNat 0x80 ∧
    thai2unicode [0x41, 0x23, 0x42, 0x20] = String.mk ['A', ' ', 'B'] := by
  have h := thai2unicode_decoding [0x41, 0x23, 0xA0, 0x20] (by decide)
  exact ⟨h.1, h.2.1 1, h.2.2.1, h.2.2.2.2.2 0xA0 (by decide) (by decide),
    by decide, by decide⟩

/-! ## Unfolding lemmas for the continuation-read routine -/

lemma sw_success_iff (a b : Nat) : [a, b] = SW_SUCCESS ↔ a = 0x90 ∧ b = 0x00 := by
  simp [SW_SUCCESS]

lemma continueRead_resp_ok (ch : Chan) (pfx : List Nat) (n : Nat) (s : SCState)
    (dd2 : List Nat) (t1 t2 : Nat)
    (h : ch.resp s.count (pfx ++ [n]) = Except.ok (dd2, t1, t2)) :
    continueRead ch pfx n s =
      (if [t1, t2] = SW_SUCCESS then Except.ok dd2
       else Except.error (PyErr.sc (SCError.getResponseFailed (pfx ++ [n]) t1 t2)),
       ⟨s.count + 1, s.log ++ [pfx ++ [n]], s.disconnects⟩) := by
  simp only [continueRead, transmit]
  rw [h]
  by_cases hc : [t1, t2] = SW_SUCCESS <;> simp [hc]

lemma continueRead_state (ch : Chan) (pfx : List Nat) (n : Nat) (s : SCState) :
    (continueRead ch pfx n s).2 =
      ⟨s.count + 1, s.log ++ [pfx ++ [n]], s.disconnects⟩ := by
  simp only [continueRead, transmit]
  cases h : ch.resp s.count (pfx ++ [n]) with
  | error e => simp
  | ok v =>
    obtain ⟨data, t1, t2⟩ := v
    by_cases hc : [t1, t2] = SW_SUCCESS <;> simp [hc]

lemma getData_resp_error (ch : Chan) (pfx cmd : List Nat) (s : SCState)
    (e : PyErr) (h : ch.resp s.count cmd = Except.error e) :
    getDataWithGetResponse ch pfx cmd s =
      (Except.error e, ⟨s.count + 1, s.log ++ [cmd], s.disconnects⟩) := by
  unfold getDataWithGetResponse transmit
  rw [h]

lemma getData_resp_ok (ch : Chan) (pfx cmd : List Nat) (s : SCState)
    (dd : List Nat) (sw1 sw2 : Nat)
    (h : ch.resp s.count cmd = Except.ok (dd, sw1, sw2)) :
    getDataWithGetResponse ch pfx cmd s =
      if [sw1, sw2] = SW_SUCCESS then
        continueRead ch pfx (cmd.getLastD 0) ⟨s.count + 1, s.log ++ [cmd], s.disconnects⟩
      else if sw1 = 0x61 then
        continueRead ch pfx sw2 ⟨s.count + 1, s.log ++ [cmd], s.disconnects⟩
      else
        (Except.error (PyErr.sc (SCError.commandFailed cmd sw1 sw2)),
         ⟨s.count + 1, s.log ++ [cmd], s.disconnects⟩) := by
  unfold getDataWithGetResponse transmit
  rw [h]

/-! ## Claims C2, C3, C4: status words and the continuation read -/

/-- C2: the status word of the initial transmit is classified by
`_get_data_with_get_response` as: `(0x90, 0x00)` success (it proceeds to
fetch with the length already embedded in the command), `sw1 = 0x61`
more-data (it proceeds to fetch `sw2` bytes), anything else failure, raising
`SmartCardError` that preserves both bytes `sw1`, `sw2`. -/
theorem status_word_classified (ch : Chan) (pfx cmd : List Nat) (s : SCState)
    (dd : List Nat) (sw1 sw2 : Nat)
    (h : ch.resp s.count cmd = Except.ok (dd, sw1, sw2)) :
    (sw1 = 0x90 ∧ sw2 = 0x00 →
      (getDataWithGetResponse ch pfx cmd s).2.log =
        s.log ++ [cmd, pfx ++ [cmd.getLastD 0]]) ∧
    (sw1 = 0x61 →
      (getDataWithGetResponse ch pfx cmd s).2.log =
        s.log ++ [cmd, pfx ++ [sw2]]) ∧
    (¬(sw1 = 0x90 ∧ sw2 = 0x00) → sw1 ≠ 0x61 →
      getDataWithGetResponse ch pfx cmd s =
        (Except.error (PyErr.sc (SCError.commandFailed cmd sw1 sw2)),
         ⟨s.count + 1, s.log ++ [cmd], s.disconnects⟩)) := by
  rw [getData_resp_ok ch pfx cmd s dd sw1 sw2 h]
  refine ⟨?_, ?_, ?_⟩
  · rintro ⟨h1, h2⟩
    subst h1
    subst h2
    rw [if_pos ((sw_success_iff _ _).mpr ⟨rfl, rfl⟩), continueRead_state]
    simp
  · intro h61
    subst h61
    rw [if_neg (by simp [SW_SUCCESS]), if_pos rfl, continueRead_state]
    simp
  · intro hn1 hn2
    rw [if_neg (by simpa [SW_SUCCESS] using hn1), if_neg hn2]

theorem status_word_classified_witness :
    getDataWithGetResponse
        (Chan.mk [] fun i _ =>
          if i = 0 then Except.ok ([], 0x90, 0x00) else Except.ok ([], 0x6A, 0x82))
        [0x00, 0xC0, 0x00, 0x00] [0x80, 0xB0, 0x00, 0x04, 0x02, 0x00, 0x0D]
        ⟨1, [], 0⟩ =
      (Except.error (PyErr.sc (SCError.commandFailed
        [0x80, 0xB0, 0x00, 0x04, 0x02, 0x00, 0x0D] 0x6A 0x82)),
       ⟨2, [[0x80, 0xB0, 0x00, 0x04, 0x02, 0x00, 0x0D]], 0⟩) :=
  (status_word_classified
    (Chan.mk [] fun i _ =>
      if i = 0 then Except.ok ([], 0x90, 0x00) else Except.ok ([], 0x6A, 0x82))
    [0x00, 0xC0, 0x00, 0x00] [0x80, 0xB0, 0x00, 0x04, 0x02, 0x00, 0x0D]
    ⟨1, [], 0⟩ [] 0x6A 0x82 rfl).2.2 (by decide) (by decide)

/-- C3: for a command whose final byte is the requested length `L`, the
continuation read uses length `L` after a success status and length `n`
after a more-data status `(0x61, n)`, always transmitting the connection's
4-byte prefix followed by that single length byte; and when the continuation
transmit itself does not return success, it raises a protocol error carrying
the continuation command bytes and the offending status word. -/
theorem continuation_read_protocol (ch : Chan) (pfx cmd : List Nat)
    (s : SCState) (dd : List Nat) (sw1 sw2 L : Nat)
    (hL : cmd.getLast? = some L)
    (h : ch.resp s.count cmd = Except.ok (dd, sw1, sw2)) :
    (sw1 = 0x90 ∧ sw2 = 0x00 →
      (getDataWithGetResponse ch pfx cmd s).2.log = s.log ++ [cmd, pfx ++ [L]]) ∧
    (sw1 = 0x61 →
      (getDataWithGetResponse ch pfx cmd s).2.log = s.log ++ [cmd, pfx ++ [sw2]]) ∧
    (∀ n, (sw1 = 0x90 ∧ sw2 = 0x00 ∧ n = L) ∨ (sw1 = 0x61 ∧ n = sw2) →
      ∀ dd2 t1 t2,
        ch.resp (s.count + 1) (pfx ++ [n]) = Except.ok (dd2, t1, t2) →
        ¬(t1 = 0x90 ∧ t2 = 0x00) →
        getDataWithGetResponse ch pfx cmd s =
          (Except.error (PyErr.sc (SCError.getResponseFailed (pfx ++ [n]) t1 t2)),
           ⟨s.count + 2, s.log ++ [cmd, pfx ++ [n]], s.disconnects⟩)) := by
  have hLD : cmd.getLastD 0 = L := by
    rw [List.getLastD_eq_getLast?, hL]
    rfl
  rw [getData_resp_ok ch pfx cmd s dd sw1 sw2 h]
  refine ⟨?_, ?_, ?_⟩
  · rintro ⟨h1, h2⟩
    subst h1
    subst h2
    rw [if_pos ((sw_success_iff _ _).mpr ⟨rfl, rfl⟩), continueRead_state, hLD]
    simp
  · intro h61
    subst h61
    rw [if_neg (by simp [SW_SUCCESS]), if_pos rfl, continueRead_state]
    simp
  · rintro n (⟨h1, h2, h3⟩ | ⟨h1, h2⟩) dd2 t1 t2 hr ht
    · subst h1; subst h2; subst h3
      rw [if_pos ((sw_success_iff _ _).mpr ⟨rfl, rfl⟩), hLD,
        continueRead_resp_ok ch pfx n ⟨s.count + 1, s.log ++ [cmd], s.disconnects⟩ dd2 t1 t2 hr,
        if_neg (by simpa [SW_SUCCESS] using ht)]
      simp
    · subst h1; subst h2
      rw [if_neg (by simp [SW_SUCCESS]), if_pos rfl,
        continueRead_resp_ok ch pfx n ⟨s.count + 1, s.log ++ [cmd], s.disconnects⟩ dd2 t1 t2 hr,
        if_neg (by simpa [SW_SUCCESS] using ht)]
      simp

theorem continuation_read_protocol_witness :
    getDataWithGetResponse
        (Chan.mk [] fun i _ =>
          if i = 0 then Except.ok ([], 0x61, 0x10) else Except.ok ([9, 9], 0x6F, 0x00))
        [0x00, 0xC0, 0x00, 0x00] [0x80, 0xB0, 0x00, 0x04, 0x02, 0x00, 0x0D]
        ⟨0, [], 0⟩ =
      (Except.error (PyErr.sc (SCError.getResponseFailed
        [0x00, 0xC0, 0x00, 0x00, 0x10] 0x6F 0x00)),
       ⟨2, [[0x80, 0xB0, 0x00, 0x04, 0x02, 0x00, 0x0D],
            [0x00, 0xC0, 0x00, 0x00, 0x10]], 0⟩) :=
  (continuation_read_protocol
    (Chan.mk [] fun i _ =>
      if i = 0 then Except.ok ([], 0x61, 0x10) else Except.ok ([9, 9], 0x6F, 0x00))
    [0x00, 0xC0, 0x00, 0x00] [0x80, 0xB0, 0x00, 0x04, 0x02, 0x00, 0x0D]
    ⟨0, [], 0⟩ [] 0x61 0x10 0x0D rfl rfl).2.2
    0x10 (Or.inr ⟨rfl, rfl⟩) [9, 9] 0x6F 0x00 rfl (by decide)

/-- C4: `connect` derives the continuation prefix `00 C0 00 01` exactly when
the first two ATR bytes are `3B 67`, and `00 C0 00 00` in every other case;
and whenever a continuation read is issued, the transmitted continuation
command is that prefix followed by a single length byte. -/
theorem atr_continuation_derivation (atr : List Nat) :
    (getResponsePfx atr = [0x00, 0xC0, 0x00, 0x01] ↔ atr.take 2 = [0x3B, 0x67]) ∧
    (atr.take 2 ≠ [0x3B, 0x67] → getResponsePfx atr = [0x00, 0xC0, 0x00, 0x00]) ∧
    (∀ ch : Chan, ∀ cmd : List Nat, ∀ s : SCState, ∀ dd : List Nat, ∀ sw1 sw2 : Nat,
      ch.resp s.count cmd = Except.ok (dd, sw1, sw2) →
      ((sw1 = 0x90 ∧ sw2 = 0x00) ∨ sw1 = 0x61) →
      ∃ n, (getDataWithGetResponse ch (getResponsePfx atr) cmd s).2.log =
        s.log ++ [cmd, getResponsePfx atr ++ [n]]) := by
  refine ⟨?_, ?_, ?_⟩
  · unfold getResponsePfx
    by_cases h : atr.take 2 = [0x3B, 0x67]
    · simp [h]
    · rw [if_neg h]
      constructor
      · intro hc
        exact absurd hc (by decide)
      · intro hc
        exact absurd hc h
  · intro h
    unfold getResponsePfx
    rw [if_neg h]
  · intro ch cmd s dd sw1 sw2 hr hcl
    rw [getData_resp_ok ch (getResponsePfx atr) cmd s dd sw1 sw2 hr]
    rcases hcl with ⟨h1, h2⟩ | h1
    · subst h1
      subst h2
      refine ⟨cmd.getLastD 0, ?_⟩
      rw [if_pos ((sw_success_iff _ _).mpr ⟨rfl, rfl⟩), continueRead_state]
      simp
    · subst h1
      refine ⟨sw2, ?_⟩
      rw [if_neg (by simp [SW_SUCCESS]), if_pos rfl, continueRead_state]
      simp

theorem atr_continuation_derivation_witness :
    getResponsePfx [0x3B, 0x67] = [0x00, 0xC0, 0x00, 0x01] ∧
    getResponsePfx [0x3B, 0x68] = [0x00, 0xC0, 0x00, 0x00] ∧
    ∃ n, (getDataWithGetResponse
        (Chan.mk [] fun i _ =>
          if i = 0 then Except.ok ([], 0x61, 0x10) else Except.ok ([9, 9], 0x6F, 0x00))
        (getResponsePfx []) [0x80, 0xB0, 0x00, 0x04, 0x02, 0x00, 0x0D]
        ⟨0, [], 0⟩).2.log =
      [] ++ [[0x80, 0xB0, 0x00, 0x04, 0x02, 0x00, 0x0D], getResponsePfx [] ++ [n]] :=
  ⟨(atr_continuation_derivation [0x3B, 0x67]).1.mpr rfl,
   (atr_continuation_derivation [0x3B, 0x68]).2.1 (by decide),
   (atr_continuation_derivation []).2.2
     (Chan.mk [] fun i _ =>
       if i = 0 then Except.ok ([], 0x61, 0x10) else Except.ok ([9, 9], 0x6F, 0x00))
     [0x80, 0xB0, 0x00, 0x04, 0x02, 0x00, 0x0D] ⟨0, [], 0⟩ [] 0x61 0x10
     rfl (Or.inr rfl)⟩

/-! ## Preservation and composition lemmas for the engine -/

lemma getData_disconnects (ch : Chan) (pfx cmd : List Nat) (s : SCState) :
    (getDataWithGetResponse ch pfx cmd s).2.disconnects = s.disconnects := by
  cases hr : ch.resp s.count cmd with
  | error e => rw [getData_resp_error ch pfx cmd s e hr]
  | ok v =>
    obtain ⟨dd, sw1, sw2⟩ := v
    rw [getData_resp_ok ch pfx cmd s dd sw1 sw2 hr]
    by_cases h1 : [sw1, sw2] = SW_SUCCESS
    · rw [if_pos h1, continueRead_state]
    · rw [if_neg h1]
      by_cases h2 : sw1 = 0x61
      · rw [if_pos h2, continueRead_state]
      · rw [if_neg h2]

lemma read_field_disconnects (ch : Chan) (pfx : List Nat) (c : APDUCommand)
    (s : SCState) : (read_field ch pfx c s).2.disconnects = s.disconnects := by
  unfold read_field
  have h := getData_disconnects ch pfx c.ins s
  cases hg : getDataWithGetResponse ch pfx c.ins s with
  | mk r s1 =>
    rw [hg] at h
    cases r with
    | error e => exact h
    | ok v => exact h

lemma readFields_disconnects (ch : Chan) (pfx : List Nat)
    (cs : List APDUCommand) : ∀ d s,
    (readFields ch pfx cs d s).2.disconnects = s.disconnects := by
  induction cs with
  | nil => intro d s; rfl
  | cons c cs ih =>
    intro d s
    have h := read_field_disconnects ch pfx c s
    show (readFields ch pfx (c :: cs) d s).2.disconnects = s.disconnects
    unfold readFields
    cases hf : read_field ch pfx c s with
    | mk r s1 =>
      rw [hf] at h
      cases r with
      | error e => exact h
      | ok v => rw [ih (setField d c.label v) s1]; exact h

lemma readPhotoAux_disconnects (ch : Chan) (pfx : List Nat)
    (r : Nat) : ∀ i acc s,
    (readPhotoAux ch pfx i r acc s).2.disconnects = s.disconnects := by
  induction r with
  | zero => intro i acc s; rfl
  | succ r ih =>
    intro i acc s
    have h := getData_disconnects ch pfx (photoCmd i) s
    unfold readPhotoAux
    cases hg : getDataWithGetResponse ch pfx (photoCmd i) s with
    | mk res s1 =>
      rw [hg] at h
      cases res with
      | ok data => rw [ih (i + 1) (acc ++ data) s1]; exact h
      | error e => cases e with
        | sc e => exact h
        | other t => exact h

lemma readFields_cons (ch : Chan) (pfx : List Nat) (c : APDUCommand)
    (cs : List APDUCommand) (d : IDCardData) (s : SCState) :
    readFields ch pfx (c :: cs) d s =
      match read_field ch pfx c s with
      | (Except.error e, s1) => (Except.error e, s1)
      | (Except.ok v, s1) => readFields ch pfx cs (setField d c.label v) s1 := rfl

lemma readFields_append (ch : Chan) (pfx : List Nat)
    (l₁ l₂ : List APDUCommand) : ∀ d s,
    readFields ch pfx (l₁ ++ l₂) d s =
      match readFields ch pfx l₁ d s with
      | (Except.error e, s1) => (Except.error e, s1)
      | (Except.ok d1, s1) => readFields ch pfx l₂ d1 s1 := by
  induction l₁ with
  | nil => intro d s; rfl
  | cons c cs ih =>
    intro d s
    rw [List.cons_append, readFields_cons, readFields_cons]
    cases hf : read_field ch pfx c s with
    | mk r s1 =>
      cases r with
      | error e => rfl
      | ok v => exact ih (setField d c.label v) s1

lemma transmit_select (ch : Chan) (d0 : List Nat) (sw1 sw2 : Nat)
    (hsel : ch.resp 0 selectApdu = Except.ok (d0, sw1, sw2)) :
    transmit ch selectApdu ⟨0, [], 0⟩ =
      (Except.ok (d0, sw1, sw2), ⟨1, [selectApdu], 0⟩) := by
  simp [transmit, hsel]

lemma read_card_body_select_ok (ch : Chan) (d0 : List Nat)
    (hsel : ch.resp 0 selectApdu = Except.ok (d0, 0x90, 0x00)) :
    read_card_body ch = readRest ch (getResponsePfx ch.atr) ⟨1, [selectApdu], 0⟩ := by
  simp only [read_card_body]
  rw [transmit_select ch d0 0x90 0x00 hsel]
  rfl

lemma readRest_fields_ok (ch : Chan) (pfx : List Nat) (s : SCState)
    (d₁ : IDCardData) (s₂ : SCState)
    (hfields : readFields ch pfx commands emptyCard s = (Except.ok d₁, s₂)) :
    readRest ch pfx s =
      match read_photo ch pfx 20 s₂ with
      | (Except.error e, s3) => (Except.error e, s3)
      | (Except.ok p, s3) => (Except.ok { d₁ with photo_bytes := p }, s3) := by
  unfold readRest
  rw [hfields]

/-! ## Claims C1, C5, C10: `read_card` error handling -/

/-- C1: if one of the nine field reads raises a protocol error, `read_card`
propagates exactly that error, transmits nothing after the failing field
read (no further field reads, no photo reads), exposes no record, and the
connection's disconnect still runs exactly once. -/
theorem read_card_field_failure_aborts
    (ch : Chan) (cmds₁ cmds₂ : List APDUCommand) (c : APDUCommand)
    (d0 : List Nat) (d₁ : IDCardData) (s₂ s₃ : SCState) (e : SCError)
    (hcat : commands = cmds₁ ++ c :: cmds₂)
    (hsel : ch.resp 0 selectApdu = Except.ok (d0, 0x90, 0x00))
    (hpre : readFields ch (getResponsePfx ch.atr) cmds₁ emptyCard
      ⟨1, [selectApdu], 0⟩ = (Except.ok d₁, s₂))
    (hfail : read_field ch (getResponsePfx ch.atr) c s₂ =
      (Except.error (PyErr.sc e), s₃)) :
    read_card ch = (Except.error (PyErr.sc e), disconnect s₃) ∧
    (read_card ch).2.disconnects = 1 ∧
    (read_card ch).2.log = s₃.log := by
  have hfull : readFields ch (getResponsePfx ch.atr) commands emptyCard
      ⟨1, [selectApdu], 0⟩ = (Except.error (PyErr.sc e), s₃) := by
    rw [hcat, readFields_append, hpre]
    show readFields ch (getResponsePfx ch.atr) (c :: cmds₂) d₁ s₂ = _
    unfold readFields
    rw [hfail]
  have hbody : read_card_body ch = (Except.error (PyErr.sc e), s₃) := by
    rw [read_card_body_select_ok ch d0 hsel]
    unfold readRest
    rw [hfull]
  have hrc : read_card ch = (Except.error (PyErr.sc e), disconnect s₃) := by
    simp only [read_card]
    rw [hbody]
  have hd2 : s₂.disconnects = 0 := by
    have h := readFields_disconnects ch (getResponsePfx ch.atr) cmds₁ emptyCard
      ⟨1, [selectApdu], 0⟩
    rw [hpre] at h
    exact h
  have hd3 : s₃.disconnects = 0 := by
    have h := read_field_disconnects ch (getResponsePfx ch.atr) c s₂
    rw [hfail] at h
    rw [h, hd2]
  refine ⟨hrc, ?_, ?_⟩
  · rw [hrc]
    simp [disconnect, hd3]
  · rw [hrc]
    rfl

theorem read_card_field_failure_aborts_witness :
    read_card (Chan.mk [] fun i _ =>
        if i = 0 then Except.ok ([], 0x90, 0x00) else Except.ok ([], 0x6A, 0x82)) =
      (Except.error (PyErr.sc (SCError.commandFailed
        [0x80, 0xB0, 0x00, 0x04, 0x02, 0x00, 0x0D] 0x6A 0x82)),
       ⟨2, [selectApdu, [0x80, 0xB0, 0x00, 0x04, 0x02, 0x00, 0x0D]], 1⟩) ∧
    (read_card (Chan.mk [] fun i _ =>
        if i = 0 then Except.ok ([], 0x90, 0x00)
        else Except.ok ([], 0x6A, 0x82))).2.disconnects = 1 := by
  have h := read_card_field_failure_aborts
    (Chan.mk [] fun i _ =>
      if i = 0 then Except.ok ([], 0x90, 0x00) else Except.ok ([], 0x6A, 0x82))
    [] (commands.drop 1)
    { ins := [0x80, 0xB0, 0x00, 0x04, 0x02, 0x00, 0x0D], label := "cid" }
    [] emptyCard ⟨1, [selectApdu], 0⟩
    ⟨2, [selectApdu, [0x80, 0xB0, 0x00, 0x04, 0x02, 0x00, 0x0D]], 0⟩
    (SCError.commandFailed [0x80, 0xB0, 0x00, 0x04, 0x02, 0x00, 0x0D] 0x6A 0x82)
    rfl rfl rfl rfl
  exact ⟨h.1, h.2.1⟩

/-- C5: a protocol failure on a photo segment stops the photo loop
immediately without being retried (third conjunct) and does not fail the
overall read: as long as the segment loop itself raises no non-protocol
exception, `read_card` still returns a complete record whose photo is the
thresholded accumulated buffer, and disconnect runs exactly once. -/
theorem photo_failure_absorbed
    (ch : Chan) (d0 : List Nat) (d₁ : IDCardData) (s₂ : SCState)
    (buf : List Nat) (s₃ : SCState)
    (hsel : ch.resp 0 selectApdu = Except.ok (d0, 0x90, 0x00))
    (hfields : readFields ch (getResponsePfx ch.atr) commands emptyCard
      ⟨1, [selectApdu], 0⟩ = (Except.ok d₁, s₂))
    (hphoto : readPhotoAux ch (getResponsePfx ch.atr) 1 20 [] s₂ =
      (Except.ok buf, s₃)) :
    read_card ch =
      (Except.ok { d₁ with photo_bytes := if buf.length < 1024 then none else some buf },
       disconnect s₃) ∧
    (read_card ch).2.disconnects = 1 ∧
    (∀ i r acc s s1 e,
      getDataWithGetResponse ch (getResponsePfx ch.atr) (photoCmd i) s =
        (Except.error (PyErr.sc e), s1) →
      readPhotoAux ch (getResponsePfx ch.atr) i (r + 1) acc s =
        (Except.ok acc, s1)) := by
  have hbody : read_card_body ch =
      (Except.ok { d₁ with photo_bytes := if buf.length < 1024 then none else some buf },
       s₃) := by
    rw [read_card_body_select_ok ch d0 hsel,
      readRest_fields_ok ch (getResponsePfx ch.atr) ⟨1, [selectApdu], 0⟩ d₁ s₂ hfields]
    have hrp : read_photo ch (getResponsePfx ch.atr) 20 s₂ =
        (Except.ok (if buf.length < 1024 then none else some buf), s₃) := by
      unfold read_photo
      rw [hphoto]
    rw [hrp]
  have hrc : read_card ch =
      (Except.ok { d₁ with photo_bytes := if buf.length < 1024 then none else some buf },
       disconnect s₃) := by
    simp only [read_card]
    rw [hbody]
  have hd2 : s₂.disconnects = 0 := by
    have h := readFields_disconnects ch (getResponsePfx ch.atr) commands emptyCard
      ⟨1, [selectApdu], 0⟩
    rw [hfields] at h
    exact h
  have hd3 : s₃.disconnects = 0 := by
    have h := readPhotoAux_disconnects ch (getResponsePfx ch.atr) 20 1 [] s₂
    rw [hphoto] at h
    rw [h, hd2]
  refine ⟨hrc, ?_, ?_⟩
  · rw [hrc]
    simp [disconnect, hd3]
  · intro i r acc s s1 e hg
    unfold readPhotoAux
    rw [hg]

/-- The transmit log of a session in which the applet select and all nine
field reads (each returning empty data with a success status word) have been
performed. -/
def logFields : List (List Nat) :=
  [selectApdu,
   [0x80, 0xB0, 0x00, 0x04, 0x02, 0x00, 0x0D], [0x00, 0xC0, 0x00, 0x00, 0x0D],
   [0x80, 0xB0, 0x00, 0x11, 0x02, 0x00, 0x64], [0x00, 0xC0, 0x00, 0x00, 0x64],
   [0x80, 0xB0, 0x00, 0x75, 0x02, 0x00, 0x64], [0x00, 0xC0, 0x00, 0x00, 0x64],
   [0x80, 0xB0, 0x00, 0xD9, 0x02, 0x00, 0x08], [0x00, 0xC0, 0x00, 0x00, 0x08],
   [0x80, 0xB0, 0x00, 0xE1, 0x02, 0x00, 0x01], [0x00, 0xC0, 0x00, 0x00, 0x01],
   [0x80, 0xB0, 0x00, 0xF6, 0x02, 0x00, 0x64], [0x00, 0xC0, 0x00, 0x00, 0x64],
   [0x80, 0xB0, 0x01, 0x67, 0x02, 0x00, 0x08], [0x00, 0xC0, 0x00, 0x00, 0x08],
   [0x80, 0xB0, 0x01, 0x6F, 0x02, 0x00, 0x08], [0x00, 0xC0, 0x00, 0x00, 0x08],
   [0x80, 0xB0, 0x15, 0x79, 0x02, 0x00, 0x64], [0x00, 0xC0, 0x00, 0x00, 0x64]]

theorem photo_failure_absorbed_witness :
    (read_card (Chan.mk [] fun i _ =>
        if i < 19 then Except.ok ([], 0x90, 0x00) else Except.ok ([], 0x6A, 0x82))).1 =
      Except.ok emptyCard ∧
    (read_card (Chan.mk [] fun i _ =>
        if i < 19 then Except.ok ([], 0x90, 0x00)
        else Except.ok ([], 0x6A, 0x82))).2.disconnects = 1 := by
  have h := photo_failure_absorbed
    (Chan.mk [] fun i _ =>
      if i < 19 then Except.ok ([], 0x90, 0x00) else Except.ok ([], 0x6A, 0x82))
    [] emptyCard ⟨19, logFields, 0⟩ [] ⟨20, logFields ++ [photoCmd 1], 0⟩
    rfl rfl rfl
  refine ⟨?_, h.2.1⟩
  rw [h.1]
  rfl

/-- C10: the photo segment loop absorbs only `SmartCardError`; a
non-`SmartCardError` exception raised during a photo segment read is not
caught by the loop (second conjunct) and propagates out of `read_card`,
failing the whole read. -/
theorem photo_loop_other_error_propagates
    (ch : Chan) (d0 : List Nat) (d₁ : IDCardData) (s₂ s₃ : SCState) (tag : Nat)
    (hsel : ch.resp 0 selectApdu = Except.ok (d0, 0x90, 0x00))
    (hfields : readFields ch (getResponsePfx ch.atr) commands emptyCard
      ⟨1, [selectApdu], 0⟩ = (Except.ok d₁, s₂))
    (hphoto : readPhotoAux ch (getResponsePfx ch.atr) 1 20 [] s₂ =
      (Except.error (PyErr.other tag), s₃)) :
    read_card ch = (Except.error (PyErr.other tag), disconnect s₃) ∧
    (∀ i r acc s s1,
      getDataWithGetResponse ch (getResponsePfx ch.atr) (photoCmd i) s =
        (Except.error (PyErr.other tag), s1) →
      readPhotoAux ch (getResponsePfx ch.atr) i (r + 1) acc s =
        (Except.error (PyErr.other tag), s1)) := by
  have hbody : read_card_body ch = (Except.error (PyErr.other tag), s₃) := by
    rw [read_card_body_select_ok ch d0 hsel,
      readRest_fields_ok ch (getResponsePfx ch.atr) ⟨1, [selectApdu], 0⟩ d₁ s₂ hfields]
    have hrp : read_photo ch (getResponsePfx ch.atr) 20 s₂ =
        (Except.error (PyErr.other tag), s₃) := by
      unfold read_photo
      rw [hphoto]
    rw [hrp]
  refine ⟨?_, ?_⟩
  · simp only [read_card]
    rw [hbody]
  · intro i r acc s s1 hg
    unfold readPhotoAux
    rw [hg]

/-! ## Claim C6: photo reassembly and the 1024-byte threshold -/

lemma readPhotoAux_succ (ch : Chan) (pfx : List Nat) (i r : Nat)
    (acc : List Nat) (s : SCState) :
    readPhotoAux ch pfx i (r + 1) acc s =
      match getDataWithGetResponse ch pfx (photoCmd i) s with
      | (Except.ok data, s1) => readPhotoAux ch pfx (i + 1) r (acc ++ data) s1
      | (Except.error (PyErr.sc _), s1) => (Except.ok acc, s1)
      | (Except.error (PyErr.other t), s1) => (Except.error (PyErr.other t), s1) := rfl

/-- C6: if photo segments `1..k` succeed with payloads `f 1, ..., f k` and
the loop then stops (either exhausted at `k = 20` or by a protocol failure
on segment `k + 1`), `_read_photo` returns the in-order concatenation of the
successful payloads whenever it holds at least 1024 bytes, and no photo at
all otherwise. -/
theorem photo_reassembly_threshold
    (ch : Chan) (pfx : List Nat) (t : Nat → SCState) (f : Nat → List Nat)
    (k : Nat) (hk : k ≤ 20)
    (hsucc : ∀ i, i < k →
      getDataWithGetResponse ch pfx (photoCmd (i + 1)) (t i) =
        (Except.ok (f (i + 1)), t (i + 1)))
    (hstop : k = 20 ∨ ∃ e, getDataWithGetResponse ch pfx (photoCmd (k + 1)) (t k) =
      (Except.error (PyErr.sc e), t (k + 1))) :
    (read_photo ch pfx 20 (t 0)).1 =
      Except.ok (if (catFrom f 0 k).length < 1024 then none
                 else some (catFrom f 0 k)) := by
  have main : ∀ m j, j ≤ k → k - j = m → ∀ acc,
      (readPhotoAux ch pfx (j + 1) (20 - j) acc (t j)).1 =
        Except.ok (acc ++ catFrom f j m) := by
    intro m
    induction m with
    | zero =>
      intro j hj hm acc
      have hjk : j = k := by omega
      subst hjk
      by_cases h20 : 20 - j = 0
      · rw [h20]
        simp [readPhotoAux, catFrom]
      · rcases hstop with he | ⟨e, he⟩
        · omega
        · obtain ⟨r, hr⟩ : ∃ r, 20 - j = r + 1 := ⟨20 - j - 1, by omega⟩
          rw [hr, readPhotoAux_succ, he]
          simp [catFrom]
    | succ m ih =>
      intro j hj hm acc
      have hjk : j < k := by omega
      obtain ⟨r, hr⟩ : ∃ r, 20 - j = r + 1 := ⟨20 - j - 1, by omega⟩
      have hr2 : r = 20 - (j + 1) := by omega
      subst hr2
      rw [hr, readPhotoAux_succ, hsucc j hjk]
      rw [ih (j + 1) (by omega) (by omega) (acc ++ f (j + 1))]
      simp [catFrom, List.append_assoc]
  have h0 := main k 0 (Nat.zero_le k) (by omega) []
  simp only [Nat.sub_zero, Nat.zero_add, List.nil_append] at h0
  unfold read_photo
  cases haux : readPhotoAux ch pfx 1 20 [] (t 0) with
  | mk res s1 =>
    rw [haux] at h0
    cases res with
    | error e => exact absurd h0 (by simp)
    | ok acc =>
      have hacc : acc = catFrom f 0 k := by simpa using h0
      subst hacc
      rfl

/-- A simulated channel for the C6 witness: every photo-segment transmit
answers success with a 255-byte payload, except the 11th transmit of the
session (the initial transmit of segment 6), which answers the failure
status `6A 00`. -/
def chPhotoSegs : Chan :=
  Chan.mk [] fun i _ =>
    if i = 10 then Except.ok ([], 0x6A, 0x00)
    else Except.ok (List.replicate 255 7, 0x90, 0x00)

/-- The two APDUs transmitted for photo segment `j` in the C6 witness run. -/
def pairLog (j : Nat) : List (List Nat) :=
  [photoCmd j, [0x00, 0xC0, 0x00, 0x00, 0xFF]]

/-- The instrumentation states traversed by the C6 witness run: after `i`
completed segments (for `i ≤ 5`), and after the failing initial transmit of
segment 6 (for `i = 6`). -/
def tC6 (i : Nat) : SCState :=
  if i ≤ 5 then ⟨2 * i, catFrom pairLog 0 i, 0⟩
  else ⟨11, catFrom pairLog 0 5 ++ [photoCmd 6], 0⟩

set_option maxRecDepth 20000 in
theorem photo_reassembly_threshold_witness :
    (read_photo chPhotoSegs [0x00, 0xC0, 0x00, 0x00] 20 ⟨0, [], 0⟩).1 =
      Except.ok (some (catFrom (fun _ => List.replicate 255 7) 0 5)) ∧
    (catFrom (fun _ => (List.replicate 255 7 : List Nat)) 0 5).length = 1275 := by
  have hlen : (catFrom (fun _ => (List.replicate 255 7 : List Nat)) 0 5).length = 1275 := by
    decide
  have h := photo_reassembly_threshold chPhotoSegs [0x00, 0xC0, 0x00, 0x00]
    tC6 (fun _ => List.replicate 255 7) 5 (by omega)
    (fun i hi => by interval_cases i <;> rfl)
    (Or.inr ⟨SCError.commandFailed (photoCmd 6) 0x6A 0x00, rfl⟩)
  rw [hlen, if_neg (by omega)] at h
  exact ⟨h, hlen⟩

theorem photo_loop_other_error_propagates_witness :
    (read_card (Chan.mk [] fun i _ =>
        if i < 19 then Except.ok ([], 0x90, 0x00)
        else Except.error (PyErr.other 7))).1 =
      Except.error (PyErr.other 7) := by
  have h := photo_loop_other_error_propagates
    (Chan.mk [] fun i _ =>
      if i < 19 then Except.ok ([], 0x90, 0x00) else Except.error (PyErr.other 7))
    [] emptyCard ⟨19, logFields, 0⟩ ⟨20, logFields ++ [photoCmd 1], 0⟩ 7
    rfl rfl rfl
  rw [h.1]

end CardReader
